import Mathlib

/-!
Shallow embedding of the terminal-core engine (`src/cascadia/TerminalCore/Terminal.cpp`).

The engine state is a record of the fields of the C++ `Terminal` class that the
verified operations touch, together with the externally observable effects the
claims talk about: the external circular text buffer's dimensions and rotation
count, the list of scroll-position-changed callback invocations (with their
arguments), and a count of the full-redraw invalidations requested from the
render target.

The external text buffer is modelled by its observable interface: its size
(`bufWidth`, `bufHeight`), its cursor (`cursor`), its rotation operation
(`bufferRotations` counts `IncrementCircularBuffer` calls), and the cell count
reported by a cell write (`WChar.plain` carries the `GetCellDistance` result
the buffer reports, since the engine only consumes that number).
-/

namespace Terminal

/-- A COORD: column `x`, row `y` (signed, like the C++ SHORT fields). -/
structure Coord where
  x : Int
  y : Int
deriving DecidableEq, Repr

/-- A SMALL_RECT as produced by the selection-geometry calculator. -/
structure SmallRect where
  left : Int
  top : Int
  right : Int
  bottom : Int
deriving DecidableEq, Repr

/-- Outcome of `Terminal::UserResize`: `S_OK`, `S_FALSE` (nothing to do), or the
HRESULT forwarded from a failed `TextBuffer::ResizeTraditional`. -/
inductive HRes where
  | sOk
  | sFalse
  | resizeError
deriving DecidableEq, Repr

/-- One input character of `Terminal::_WriteBuffer`, as the writer's `if` chain
classifies it.  An ordinary (non-control) character is represented by the cell
distance the external buffer's write operation reports for it, because that
count is the only thing the writer reads back from the write. -/
inductive WChar where
  | lf
  | cr
  | bs
  | plain (cellDistance : Nat)
deriving DecidableEq, Repr

/-- Engine state: the `Terminal` fields plus the observable effects on its
external collaborators. -/
structure TermState where
  /-- Field `_mutableViewport`'s top row (its origin is always `{0, top}`). -/
  viewportTop : Int
  /-- Field `_mutableViewport`'s width. -/
  viewportWidth : Int
  /-- Field `_mutableViewport`'s height. -/
  viewportHeight : Int
  /-- Field `_scrollbackLines`. -/
  scrollbackLines : Int
  /-- Field `_scrollOffset`. -/
  scrollOffset : Int
  /-- External buffer width (`_buffer->GetSize().Width()`). -/
  bufWidth : Int
  /-- External buffer height (`_buffer->GetSize().Height()`). -/
  bufHeight : Int
  /-- External buffer cursor (`_buffer->GetCursor().GetPosition()`). -/
  cursor : Coord
  /-- The writer's `static bool skipNewline` (session-scoped CR/LF state). -/
  skipNewline : Bool
  /-- Field `_snapOnInput`. -/
  snapOnInput : Bool
  /-- Field `_selectionAnchor`. -/
  selectionAnchor : Coord
  /-- Field `_endSelectionPosition`. -/
  endSelectionPosition : Coord
  /-- Field `_boxSelection`. -/
  boxSelection : Bool
  /-- Field `_renderSelection`. -/
  renderSelection : Bool
  /-- Field `_title`. -/
  title : String
  /-- Whether `_pfnScrollPositionChanged` is registered. -/
  scrollCallbackSet : Bool
  /-- Log of `_pfnScrollPositionChanged(top, height, bottom)` invocations. -/
  scrollEvents : List (Int × Int × Int)
  /-- Count of `TriggerRedrawAll` calls on the render target. -/
  redrawAllCount : Nat
  /-- Count of `IncrementCircularBuffer` calls on the external buffer. -/
  bufferRotations : Nat
deriving DecidableEq, Repr

/-- Source `Terminal::Create(viewportSize, scrollbackLines, renderTarget)`:
viewport at origin with the given dimensions, buffer sized
`{width, height + scrollbackLines}`, everything else at its constructor
default.  `cbSet` records whether a scroll callback is registered. -/
def createState (w h scrollback : Int) (snap : Bool) (cbSet : Bool) : TermState :=
  { viewportTop := 0
    viewportWidth := w
    viewportHeight := h
    scrollbackLines := scrollback
    scrollOffset := 0
    bufWidth := w
    bufHeight := h + scrollback
    cursor := ⟨0, 0⟩
    skipNewline := false
    snapOnInput := snap
    selectionAnchor := ⟨0, 0⟩
    endSelectionPosition := ⟨0, 0⟩
    boxSelection := false
    renderSelection := false
    title := ""
    scrollCallbackSet := cbSet
    scrollEvents := []
    redrawAllCount := 0
    bufferRotations := 0 }

/-- Source `Terminal::_ViewStartIndex`: the live viewport's top, also the scrollback
length. -/
def viewStartIndex (s : TermState) : Int := s.viewportTop

/-- Source `Terminal::_VisibleStartIndex`: `max(0, _ViewStartIndex() - _scrollOffset)`. -/
def visibleStartIndex (s : TermState) : Int := max 0 (viewStartIndex s - s.scrollOffset)

/-- Source `Terminal::GetBufferHeight`: `_mutableViewport.BottomExclusive()`. -/
def getBufferHeight (s : TermState) : Int := s.viewportTop + s.viewportHeight

/-- Source `Terminal::GetScrollOffset`: returns `_VisibleStartIndex()`. -/
def getScrollOffset (s : TermState) : Int := visibleStartIndex s

/-- Source `IRenderTarget::TriggerRedrawAll`, observed as a counter. -/
def triggerRedrawAll (s : TermState) : TermState :=
  { s with redrawAllCount := s.redrawAllCount + 1 }

/-- Source `Terminal::_NotifyScrollEvent`: if a callback is registered, invoke it with
the visible viewport's top and height and `GetBufferHeight()`. -/
def notifyScrollEvent (s : TermState) : TermState :=
  if s.scrollCallbackSet then
    { s with scrollEvents :=
        s.scrollEvents ++ [(visibleStartIndex s, s.viewportHeight, getBufferHeight s)] }
  else s

/-- Source `Terminal::UserScrollViewport(viewTop)`: clamp the target to `≥ 0`, set
`_scrollOffset = max(0, realTop - clampedNewTop)`, trigger a full redraw. -/
def userScrollViewport (s : TermState) (viewTop : Int) : TermState :=
  let clampedNewTop := max 0 viewTop
  let newDelta := viewStartIndex s - clampedNewTop
  triggerRedrawAll { s with scrollOffset := max 0 newDelta }

/-- Source `Terminal::UserResize(viewportSize)`.  `reflowOk` is whether the external
`TextBuffer::ResizeTraditional` succeeds; on its failure the engine returns
early (`RETURN_IF_FAILED`) with the HRESULT, after `_mutableViewport` has
already been replaced by `Viewport::FromDimensions({0, 0}, viewportSize)`. -/
def userResize (s : TermState) (w h : Int) (reflowOk : Bool) : HRes × TermState :=
  if w = s.viewportWidth ∧ h = s.viewportHeight then
    (HRes.sFalse, s)
  else
    let s1 := { s with viewportTop := 0, viewportWidth := w, viewportHeight := h }
    if reflowOk then
      let s2 := { s1 with bufWidth := w, bufHeight := h + s.scrollbackLines }
      (HRes.sOk, notifyScrollEvent s2)
    else
      (HRes.resizeError, s1)

/-- The scroll-state part of `Terminal::SendKeyEvent`: if `_snapOnInput` and
`_scrollOffset != 0`, reset the offset and notify (forwarding the key to the
external input encoder is out of engine scope). -/
def sendKeyEvent (s : TermState) : TermState :=
  if s.snapOnInput = true ∧ ¬ s.scrollOffset = 0 then
    notifyScrollEvent { s with scrollOffset := 0 }
  else s

/-- The tail of one iteration of `Terminal::_WriteBuffer`'s loop, from the
overflow check onward: rotate the buffer while the proposed row is past the
bottom of storage, commit the cursor, update `skipNewline`, pull the live
viewport down after the cursor, and fire redraw plus scroll notification when
owed. -/
def commitChar (s : TermState) (before proposed : Coord) : TermState :=
  let newRows := proposed.y - s.bufHeight + 1
  let rotated : Coord × Nat :=
    if 0 < newRows then ({ proposed with y := proposed.y - newRows }, newRows.toNat)
    else (proposed, 0)
  let cursorAfter := rotated.1
  let notifyScrollA := decide (0 < newRows)
  let s1 := { s with
    cursor := cursorAfter
    bufferRotations := s.bufferRotations + rotated.2
    skipNewline := decide (cursorAfter.y = before.y + 1) }
  let follow : TermState × Bool :=
    if s1.viewportTop + s1.viewportHeight - 1 < cursorAfter.y then
      let newViewTop := max 0 (cursorAfter.y - (s1.viewportHeight - 1))
      if ¬ newViewTop = s1.viewportTop then
        ({ s1 with viewportTop := newViewTop }, true)
      else (s1, notifyScrollA)
    else (s1, notifyScrollA)
  if follow.2 then notifyScrollEvent (triggerRedrawAll follow.1) else follow.1

/-- One character step of `Terminal::_WriteBuffer`: the `if` chain computing
the proposed cursor position, then `commitChar`.  A suppressed LINE FEED only
clears `skipNewline` and moves to the next character. -/
def writeChar (s : TermState) (c : WChar) : TermState :=
  let before := s.cursor
  match c with
  | WChar.lf =>
    if s.skipNewline then { s with skipNewline := false }
    else commitChar s before { before with y := before.y + 1 }
  | WChar.cr =>
    commitChar s before { before with x := 0 }
  | WChar.bs =>
    if before.x = 0 then
      commitChar s before ⟨s.bufWidth - 1, before.y - 1⟩
    else
      commitChar s before { before with x := before.x - 1 }
  | WChar.plain d =>
    commitChar s before { before with x := before.x + (d : Int) }

/-- Source `Terminal::_WriteBuffer` over a whole input run. -/
def writeBuffer (s : TermState) (cs : List WChar) : TermState :=
  cs.foldl writeChar s

/-- Source `Terminal::SetEndSelectionPosition(position)`: store the coordinate with
`_scrollOffset` subtracted from its row. -/
def setEndSelectionPosition (s : TermState) (pos : Coord) : TermState :=
  { s with endSelectionPosition := ⟨pos.x, pos.y - s.scrollOffset⟩ }

/-- Source `Terminal::SetSelectionAnchor(position)`: re-base and store the anchor,
enable selection rendering, then set the end position from the same input. -/
def setSelectionAnchor (s : TermState) (pos : Coord) : TermState :=
  let s1 := { s with
    selectionAnchor := ⟨pos.x, pos.y - s.scrollOffset⟩
    renderSelection := true }
  setEndSelectionPosition s1 pos

/-- Source `Terminal::ClearSelection`: zero both coordinates, disable rendering. -/
def clearSelection (s : TermState) : TermState :=
  { s with
    selectionAnchor := ⟨0, 0⟩
    endSelectionPosition := ⟨0, 0⟩
    renderSelection := false }

/-- Source `Terminal::_GetSelectionRects`: empty when `_renderSelection` is unset;
otherwise one rectangle per row from the coordinate with the smaller row to
the one with the larger row, tops and bottoms shifted by `_ViewStartIndex()`,
columns fixed to min/max in box mode and otherwise full-width except at the
two end rows. -/
def getSelectionRects (s : TermState) : List SmallRect :=
  if s.renderSelection = false then []
  else
    let higherCoord :=
      if s.selectionAnchor.y ≤ s.endSelectionPosition.y then s.selectionAnchor
      else s.endSelectionPosition
    let lowerCoord :=
      if s.endSelectionPosition.y < s.selectionAnchor.y then s.selectionAnchor
      else s.endSelectionPosition
    (List.range (lowerCoord.y - higherCoord.y + 1).toNat).map (fun (k : Nat) =>
      let row := higherCoord.y + (k : Int)
      let t := row + viewStartIndex s
      if s.boxSelection then
        { left := min higherCoord.x lowerCoord.x
          top := t
          right := max higherCoord.x lowerCoord.x
          bottom := t }
      else
        { left := if row = higherCoord.y then higherCoord.x else 0
          top := t
          right := if row = lowerCoord.y then lowerCoord.x else s.bufWidth - 1
          bottom := t })

/-- A public engine operation, for invariant statements quantified over the
engine's mutating interface. -/
inductive PublicOp where
  | userScroll (viewTop : Int)
  | resize (w h : Int) (reflowOk : Bool)
  | keyEvent
  | write (cs : List WChar)

/-- Apply a public operation to the engine state. -/
def applyOp (s : TermState) : PublicOp → TermState
  | PublicOp.userScroll t => userScrollViewport s t
  | PublicOp.resize w h ok => (userResize s w h ok).2
  | PublicOp.keyEvent => sendKeyEvent s
  | PublicOp.write cs => writeBuffer s cs

/-- A fresh 80×24 viewport with zero scrollback and a registered scroll
callback. -/
def s80x24 : TermState := createState 80 24 0 true true

/-- The input run "Hello\r\n": five ordinary one-cell characters, then CR, LF. -/
def helloInput : List WChar :=
  [WChar.plain 1, WChar.plain 1, WChar.plain 1, WChar.plain 1, WChar.plain 1,
   WChar.cr, WChar.lf]

/-- A state whose live viewport top is 3 (as after scrolled output), used to
observe what a failed resize does to the viewport. -/
def sTop3 : TermState := { createState 80 24 6 true true with viewportTop := 3 }

/-- A state reached from a fresh 80×2 viewport with 5 scrollback lines by
writing LF, CR, LF, scrolling the view to the top, then resizing to 81×2. -/
def c2state : TermState :=
  (userResize
    (userScrollViewport
      (writeBuffer (createState 80 2 5 true true) [WChar.lf, WChar.cr, WChar.lf]) 0)
    81 2 true).2

/-- A same-row stream selection: anchor at column 5, end at column 2, both on
row 2 of a fresh 80×24 state. -/
def c7state : TermState :=
  { createState 80 24 0 true true with
      renderSelection := true
      boxSelection := false
      selectionAnchor := ⟨5, 2⟩
      endSelectionPosition := ⟨2, 2⟩ }

/-- A state whose session-scoped `skipNewline` flag is set. -/
def sSkip : TermState := { createState 80 24 0 true true with skipNewline := true }

/-- Helper: `_NotifyScrollEvent` does not move the buffer cursor. -/
theorem notifyScrollEvent_cursor (s : TermState) : (notifyScrollEvent s).cursor = s.cursor := by
  unfold notifyScrollEvent
  split <;> rfl

/-- Helper: `_NotifyScrollEvent` does not change the scroll offset. -/
theorem notifyScrollEvent_scrollOffset (s : TermState) :
    (notifyScrollEvent s).scrollOffset = s.scrollOffset := by
  unfold notifyScrollEvent
  split <;> rfl

/-- Helper: `_NotifyScrollEvent` does not move the live viewport. -/
theorem notifyScrollEvent_viewportTop (s : TermState) :
    (notifyScrollEvent s).viewportTop = s.viewportTop := by
  unfold notifyScrollEvent
  split <;> rfl

/-- The cursor committed by the writer's overflow-and-commit stage: the
proposed position, its row replaced by `bufHeight - 1` when it was past the
bottom of storage. -/
theorem commitChar_cursor (s : TermState) (before proposed : Coord) :
    (commitChar s before proposed).cursor =
      (if 0 < proposed.y - s.bufHeight + 1 then ⟨proposed.x, s.bufHeight - 1⟩
       else proposed) := by
  by_cases h1 : 0 < proposed.y - s.bufHeight + 1 <;>
    simp only [commitChar, h1, reduceIte] <;>
    split_ifs <;>
    simp only [notifyScrollEvent_cursor, triggerRedrawAll, Coord.mk.injEq] <;>
    first
      | rfl
      | exact ⟨trivial, by omega⟩

/-- The overflow-and-commit stage records the CR/LF suppression flag exactly
when the committed row is the before-row plus one. -/
theorem commitChar_skipNewline (s : TermState) (before proposed : Coord) :
    (commitChar s before proposed).skipNewline
      = decide ((commitChar s before proposed).cursor.y = before.y + 1) := by
  rw [commitChar_cursor]
  by_cases h1 : 0 < proposed.y - s.bufHeight + 1
  · simp only [commitChar, notifyScrollEvent, triggerRedrawAll, h1, reduceIte]
    split_ifs <;> simp only [decide_eq_decide] <;> omega
  · simp only [commitChar, notifyScrollEvent, triggerRedrawAll, h1, reduceIte]
    split_ifs <;> rfl

/-- The overflow-and-commit stage does not change the scroll offset. -/
theorem commitChar_scrollOffset (s : TermState) (before proposed : Coord) :
    (commitChar s before proposed).scrollOffset = s.scrollOffset := by
  simp only [commitChar, notifyScrollEvent, triggerRedrawAll]
  split_ifs <;> rfl

/-- The overflow-and-commit stage does not change the buffer dimensions. -/
theorem commitChar_bufHeight (s : TermState) (before proposed : Coord) :
    (commitChar s before proposed).bufHeight = s.bufHeight := by
  simp only [commitChar, notifyScrollEvent, triggerRedrawAll]
  split_ifs <;> rfl

/-- The overflow-and-commit stage keeps the live viewport top nonnegative. -/
theorem commitChar_viewportTop_nonneg (s : TermState) (before proposed : Coord)
    (h : 0 ≤ s.viewportTop) : 0 ≤ (commitChar s before proposed).viewportTop := by
  simp only [commitChar, notifyScrollEvent, triggerRedrawAll]
  split_ifs <;> (try exact h) <;> simp

/-- One writer step does not change the scroll offset. -/
theorem writeChar_scrollOffset (s : TermState) (c : WChar) :
    (writeChar s c).scrollOffset = s.scrollOffset := by
  cases c <;> simp only [writeChar] <;>
    first
      | exact commitChar_scrollOffset _ _ _
      | (split_ifs <;> first | rfl | exact commitChar_scrollOffset _ _ _)

/-- One writer step keeps the live viewport top nonnegative. -/
theorem writeChar_viewportTop_nonneg (s : TermState) (c : WChar)
    (h : 0 ≤ s.viewportTop) : 0 ≤ (writeChar s c).viewportTop := by
  cases c <;> simp only [writeChar] <;>
    first
      | exact commitChar_viewportTop_nonneg _ _ _ h
      | (split_ifs <;> first | exact h | exact commitChar_viewportTop_nonneg _ _ _ h)

/-- A whole write run does not change the scroll offset. -/
theorem writeBuffer_scrollOffset (cs : List WChar) :
    ∀ s : TermState, (writeBuffer s cs).scrollOffset = s.scrollOffset := by
  induction cs with
  | nil => intro s; rfl
  | cons c cs ih =>
    intro s
    calc (writeBuffer (writeChar s c) cs).scrollOffset
        = (writeChar s c).scrollOffset := ih (writeChar s c)
      _ = s.scrollOffset := writeChar_scrollOffset s c

/-- A whole write run keeps the live viewport top nonnegative. -/
theorem writeBuffer_viewportTop_nonneg (cs : List WChar) :
    ∀ s : TermState, 0 ≤ s.viewportTop → 0 ≤ (writeBuffer s cs).viewportTop := by
  induction cs with
  | nil => intro s h; exact h
  | cons c cs ih =>
    intro s h
    exact ih (writeChar s c) (writeChar_viewportTop_nonneg s c h)

/-- C1 counterexample: with the live viewport top at 3, a resize to 80×30 whose
buffer reflow fails returns the failure outcome, yet the live viewport has
already been replaced (top reset to 0, height 30), so the engine state is not
exactly as it was before the call. -/
theorem userResize_failure_cex :
    (userResize sTop3 80 30 false).1 = HRes.resizeError ∧
    (userResize sTop3 80 30 false).2.viewportTop = 0 ∧
    (userResize sTop3 80 30 false).2.viewportHeight = 30 ∧
    sTop3.viewportTop = 3 ∧ sTop3.viewportHeight = 24 ∧
    ¬ (userResize sTop3 80 30 false).2 = sTop3 := by
  decide

/-- C1 amended: when the requested dimensions differ from the current ones and
the buffer reflow fails, `UserResize` returns the failure, but only after the
live viewport has been replaced by one at origin with the new dimensions;
every other engine field (scroll offset, cursor, selection, buffer size,
title, notification log) is left as it was, and no scroll notification is
fired. -/
theorem userResize_failure_state (s : TermState) (w h : Int)
    (hne : ¬ (w = s.viewportWidth ∧ h = s.viewportHeight)) :
    userResize s w h false =
      (HRes.resizeError,
       { s with viewportTop := 0, viewportWidth := w, viewportHeight := h }) := by
  simp [userResize, hne]

/-- C1 witness: the failed-resize description evaluated at a concrete state. -/
theorem userResize_failure_state_w :
    userResize sTop3 80 30 false =
      (HRes.resizeError,
       { sTop3 with viewportTop := 0, viewportWidth := 80, viewportHeight := 30 }) :=
  userResize_failure_state sTop3 80 30 (by decide)

/-- C3: scrolling to target `t` and then reading the visible top yields `t`
clamped to `[0, scrollbackDepth]`, for any state whose live top is
nonnegative (as in every reachable state). -/
theorem userScroll_roundtrip (s : TermState) (t : Int) (h : 0 ≤ s.viewportTop) :
    getScrollOffset (userScrollViewport s t) = min (max t 0) s.viewportTop := by
  simp only [userScrollViewport, getScrollOffset, visibleStartIndex, viewStartIndex,
    triggerRedrawAll]
  omega

/-- C3 witness: the round-trip at a concrete scrolled state and target. -/
theorem userScroll_roundtrip_w :
    getScrollOffset (userScrollViewport c2state 2) = min (max 2 0) c2state.viewportTop :=
  userScroll_roundtrip c2state 2 (by decide)

/-- C9 counterexample: writing "Hello\r\n" on a fresh 80×24 viewport with zero
scrollback and a registered scroll callback leaves the cursor at row 1,
column 0, but fires no scroll-changed notification at all, not exactly one. -/
theorem hello_crlf_cex :
    (writeBuffer s80x24 helloInput).cursor = ⟨0, 1⟩ ∧
    ¬ (writeBuffer s80x24 helloInput).scrollEvents.length = 1 := by
  decide

/-- C9 amended: on a fresh 80×24 viewport with zero scrollback, writing
"Hello\r\n" leaves the cursor at row 1, column 0, the live viewport top at 0,
and fires no scroll-changed notification (no buffer rotation occurs and the
viewport top never moves, which are the only notification triggers of the
writer). -/
theorem hello_crlf_amended :
    (writeBuffer s80x24 helloInput).cursor = ⟨0, 1⟩ ∧
    (writeBuffer s80x24 helloInput).scrollEvents = [] ∧
    (writeBuffer s80x24 helloInput).viewportTop = 0 ∧
    (writeBuffer s80x24 helloInput).bufferRotations = 0 := by
  decide

/-- C10: `UserScrollViewport` only rewrites `scrollOffset` (to
`max(0, liveTop - max(0, target))`) and requests one full-render
invalidation; it never invokes the scroll-position-changed callback and
leaves the live viewport, the selection coordinates and flags, the title,
the cursor, and the external buffer untouched. -/
theorem userScroll_frame (s : TermState) (t : Int) :
    (userScrollViewport s t).scrollEvents = s.scrollEvents ∧
    (userScrollViewport s t).redrawAllCount = s.redrawAllCount + 1 ∧
    (userScrollViewport s t).viewportTop = s.viewportTop ∧
    (userScrollViewport s t).viewportWidth = s.viewportWidth ∧
    (userScrollViewport s t).viewportHeight = s.viewportHeight ∧
    (userScrollViewport s t).selectionAnchor = s.selectionAnchor ∧
    (userScrollViewport s t).endSelectionPosition = s.endSelectionPosition ∧
    (userScrollViewport s t).renderSelection = s.renderSelection ∧
    (userScrollViewport s t).boxSelection = s.boxSelection ∧
    (userScrollViewport s t).title = s.title ∧
    (userScrollViewport s t).cursor = s.cursor ∧
    (userScrollViewport s t).bufWidth = s.bufWidth ∧
    (userScrollViewport s t).bufHeight = s.bufHeight ∧
    (userScrollViewport s t).bufferRotations = s.bufferRotations ∧
    (userScrollViewport s t).skipNewline = s.skipNewline ∧
    (userScrollViewport s t).scrollOffset = max 0 (s.viewportTop - max 0 t) := by
  simp [userScrollViewport, triggerRedrawAll, viewStartIndex]

/-- C4: when the proposed cursor row exceeds `bufHeight - 1` by `k > 0`, the
overflow-and-commit stage rotates the external circular buffer exactly `k`
times, commits the cursor at row `bufHeight - 1` with the proposed column,
and the owed scroll notification fires: one full redraw is requested and,
when a callback is registered, exactly one scroll event is delivered. -/
theorem overflow_rotation (s : TermState) (before proposed : Coord) (k : Int)
    (hk : 0 < k) (hp : proposed.y = s.bufHeight - 1 + k) :
    (commitChar s before proposed).bufferRotations = s.bufferRotations + k.toNat ∧
    (commitChar s before proposed).cursor.y = s.bufHeight - 1 ∧
    (commitChar s before proposed).cursor.x = proposed.x ∧
    (commitChar s before proposed).redrawAllCount = s.redrawAllCount + 1 ∧
    (s.scrollCallbackSet = true →
      (commitChar s before proposed).scrollEvents.length = s.scrollEvents.length + 1) := by
  have hnew : 0 < proposed.y - s.bufHeight + 1 := by omega
  simp only [commitChar, if_pos hnew, notifyScrollEvent, triggerRedrawAll]
  split_ifs <;> simp_all <;> omega

/-- C4 witness: a proposed row two past the bottom of a fresh 80×24 buffer. -/
theorem overflow_rotation_w :
    (commitChar s80x24 ⟨0, 23⟩ ⟨0, 25⟩).bufferRotations = s80x24.bufferRotations + (2 : Int).toNat ∧
    (commitChar s80x24 ⟨0, 23⟩ ⟨0, 25⟩).cursor.y = s80x24.bufHeight - 1 ∧
    (commitChar s80x24 ⟨0, 23⟩ ⟨0, 25⟩).cursor.x = (0 : Int) ∧
    (commitChar s80x24 ⟨0, 23⟩ ⟨0, 25⟩).redrawAllCount = s80x24.redrawAllCount + 1 ∧
    (s80x24.scrollCallbackSet = true →
      (commitChar s80x24 ⟨0, 23⟩ ⟨0, 25⟩).scrollEvents.length = s80x24.scrollEvents.length + 1) :=
  overflow_rotation s80x24 ⟨0, 23⟩ ⟨0, 25⟩ 2 (by decide) (by decide)

/-- C5 counterexample: from a fresh state, a first LINE FEED (preceded by no
character at all, let alone a carriage return) sets the suppression flag, so
the immediately following LINE FEED is suppressed: after "\n\n" the cursor
row is 1, not 2 as the claim requires when the preceding character is not a
row-advancing CARRIAGE RETURN. -/
theorem lf_suppression_cex :
    (writeChar s80x24 WChar.lf).skipNewline = true ∧
    (writeBuffer s80x24 [WChar.lf, WChar.lf]).cursor.y = 1 ∧
    ¬ (writeBuffer s80x24 [WChar.lf, WChar.lf]).cursor.y = 2 := by
  decide

/-- C5 amended: a LINE FEED is suppressed exactly when the session's
suppression flag is set, and after any processed character the flag is set
exactly when that character's committed row equals its starting row plus one
(true for a non-rotating LINE FEED, never for a CARRIAGE RETURN, which leaves
the row unchanged); an unsuppressed LINE FEED moves the committed row to
`min(row + 1, bufHeight - 1)`. -/
theorem lf_suppression_amended (s : TermState) (c : WChar) :
    ((writeChar s c).skipNewline = true ↔ (writeChar s c).cursor.y = s.cursor.y + 1) ∧
    (s.skipNewline = true → writeChar s WChar.lf = { s with skipNewline := false }) ∧
    (s.skipNewline = false →
      (writeChar s WChar.lf).cursor.y = min (s.cursor.y + 1) (s.bufHeight - 1)) := by
  refine ⟨?_, ?_, ?_⟩
  · cases c with
    | lf =>
      by_cases h : s.skipNewline
      · simp only [writeChar, h, reduceIte]
        simp
      · simp only [writeChar, h, Bool.false_eq_true, reduceIte]
        rw [commitChar_skipNewline]
        simp
    | cr =>
      simp only [writeChar]
      rw [commitChar_skipNewline]
      simp
    | bs =>
      by_cases h : s.cursor.x = 0 <;>
        simp only [writeChar, h, reduceIte] <;>
        rw [commitChar_skipNewline] <;>
        simp
    | plain d =>
      simp only [writeChar]
      rw [commitChar_skipNewline]
      simp
  · intro h
    simp [writeChar, h]
  · intro h
    simp only [writeChar, h, Bool.false_eq_true, reduceIte]
    rw [commitChar_cursor]
    split_ifs with hcond <;> simp at hcond ⊢ <;> omega

/-- C5 witness: with the suppression flag set, a LINE FEED only clears the
flag; from a fresh state, a LINE FEED advances the committed row to
`min(0 + 1, 24 - 1)`. -/
theorem lf_suppression_amended_w :
    writeChar sSkip WChar.lf = { sSkip with skipNewline := false } ∧
    (writeChar s80x24 WChar.lf).cursor.y = min (s80x24.cursor.y + 1) (s80x24.bufHeight - 1) :=
  ⟨(lf_suppression_amended sSkip WChar.lf).2.1 rfl,
   (lf_suppression_amended s80x24 WChar.lf).2.2 rfl⟩

/-- C8 counterexample: a BACKSPACE at column 0 of row 0 commits the cursor at
column `bufWidth - 1` and row `-1`, outside `[0, bufHeight)`. -/
theorem cursor_bounds_cex :
    (writeChar s80x24 WChar.bs).cursor = ⟨79, -1⟩ ∧
    ¬ (0 ≤ (writeChar s80x24 WChar.bs).cursor.y) := by
  decide

/-- C8 amended: starting from a cursor inside the buffer, one writer step on
any character keeps the committed row strictly below `bufHeight` and at least
`-1`, and the committed column at least `0`; the lower row bound `0` is kept
by every character except BACKSPACE at column 0, which moves the row down by
one (to `-1` when it was `0`).  No upper bound on the column is restored for
ordinary characters, whose reported cell distance is added without wrapping. -/
theorem cursor_bounds_amended (s : TermState) (c : WChar)
    (hy0 : 0 ≤ s.cursor.y) (hyh : s.cursor.y < s.bufHeight)
    (hx0 : 0 ≤ s.cursor.x) (hw : 1 ≤ s.bufWidth) :
    (writeChar s c).cursor.y < s.bufHeight ∧
    -1 ≤ (writeChar s c).cursor.y ∧
    0 ≤ (writeChar s c).cursor.x ∧
    ((c = WChar.bs ∧ s.cursor.x = 0) ∨ 0 ≤ (writeChar s c).cursor.y) := by
  cases c with
  | lf =>
    by_cases h : s.skipNewline
    · simp only [writeChar, h, reduceIte]
      exact ⟨hyh, by omega, hx0, Or.inr hy0⟩
    · simp only [writeChar, h, Bool.false_eq_true, reduceIte]
      rw [commitChar_cursor]
      split_ifs with hc <;> simp at hc ⊢ <;> omega
  | cr =>
    simp only [writeChar]
    rw [commitChar_cursor]
    split_ifs with hc <;> simp at hc ⊢ <;> omega
  | bs =>
    by_cases h : s.cursor.x = 0 <;>
      simp only [writeChar, h, reduceIte] <;>
      rw [commitChar_cursor] <;>
      split_ifs with hc <;> simp at hc ⊢ <;> omega
  | plain d =>
    simp only [writeChar]
    rw [commitChar_cursor]
    split_ifs with hc <;> simp at hc ⊢ <;> omega

/-- C8 witness: the amended bounds at a fresh 80×24 state on a one-cell
ordinary character. -/
theorem cursor_bounds_amended_w :
    (writeChar s80x24 (WChar.plain 1)).cursor.y < s80x24.bufHeight ∧
    -1 ≤ (writeChar s80x24 (WChar.plain 1)).cursor.y ∧
    0 ≤ (writeChar s80x24 (WChar.plain 1)).cursor.x ∧
    ((WChar.plain 1 = WChar.bs ∧ s80x24.cursor.x = 0) ∨
      0 ≤ (writeChar s80x24 (WChar.plain 1)).cursor.y) :=
  cursor_bounds_amended s80x24 (WChar.plain 1) (by decide) (by decide) (by decide) (by decide)

/-- C2 counterexample: from a fresh 80×2 viewport with 5 scrollback lines,
writing LF CR LF moves the live top to 1, scrolling to target 0 makes the
scroll offset 1, and a subsequent successful resize resets the live top to 0
while keeping the offset, so `scrollOffset ≤ scrollbackDepth` fails after a
public operation. -/
theorem scroll_invariant_cex :
    c2state.scrollOffset = 1 ∧ c2state.viewportTop = 0 ∧
    ¬ c2state.scrollOffset ≤ viewStartIndex c2state := by
  decide

/-- C2 amended: every public operation (scroll, resize, key event, write)
preserves `0 ≤ scrollOffset` and `0 ≤ liveTop`, and the visible top always
satisfies `0 ≤ visibleTop ≤ scrollbackDepth`; the upper bound
`scrollOffset ≤ scrollbackDepth` itself is not preserved (resize resets the
live top to 0 and keeps the offset). -/
theorem scroll_invariant_amended (s : TermState) (op : PublicOp)
    (h1 : 0 ≤ s.scrollOffset) (h2 : 0 ≤ s.viewportTop) :
    0 ≤ (applyOp s op).scrollOffset ∧ 0 ≤ (applyOp s op).viewportTop ∧
    0 ≤ visibleStartIndex (applyOp s op) ∧
    visibleStartIndex (applyOp s op) ≤ viewStartIndex (applyOp s op) := by
  have key : 0 ≤ (applyOp s op).scrollOffset ∧ 0 ≤ (applyOp s op).viewportTop := by
    cases op with
    | userScroll t =>
      refine ⟨?_, ?_⟩ <;>
        (try simp only [applyOp, userScrollViewport, triggerRedrawAll, viewStartIndex]) <;>
        omega
    | resize w h ok =>
      simp only [applyOp, userResize]
      split_ifs <;> refine ⟨?_, ?_⟩ <;>
        (try simp only [notifyScrollEvent, triggerRedrawAll]) <;>
        (try split_ifs) <;> (try simp) <;> omega
    | keyEvent =>
      simp only [applyOp, sendKeyEvent]
      split_ifs <;> refine ⟨?_, ?_⟩ <;>
        (try simp only [notifyScrollEvent, triggerRedrawAll]) <;>
        (try split_ifs) <;> (try simp) <;> omega
    | write cs =>
      exact ⟨(writeBuffer_scrollOffset cs s).symm ▸ h1,
             writeBuffer_viewportTop_nonneg cs s h2⟩
  refine ⟨key.1, key.2, ?_, ?_⟩ <;>
    simp only [visibleStartIndex, viewStartIndex] <;> omega

/-- C2 witness: the preserved bounds at a fresh state under a user scroll. -/
theorem scroll_invariant_amended_w :
    0 ≤ (applyOp s80x24 (PublicOp.userScroll 7)).scrollOffset ∧
    0 ≤ (applyOp s80x24 (PublicOp.userScroll 7)).viewportTop ∧
    0 ≤ visibleStartIndex (applyOp s80x24 (PublicOp.userScroll 7)) ∧
    visibleStartIndex (applyOp s80x24 (PublicOp.userScroll 7)) ≤
      viewStartIndex (applyOp s80x24 (PublicOp.userScroll 7)) :=
  scroll_invariant_amended s80x24 (PublicOp.userScroll 7) (by decide) (by decide)

/-- C6: the selection-geometry calculator returns the empty sequence whenever
`renderSelection` is false, in particular right after `ClearSelection`; for an
active selection it returns exactly `|anchorRow - endRow| + 1` rectangles, one
per row from the smaller stored row to the larger one, each with top and
bottom equal to that row plus the scrollback depth (`_ViewStartIndex`). -/
theorem selection_rects_shape (s : TermState) :
    (s.renderSelection = false → getSelectionRects s = []) ∧
    getSelectionRects (clearSelection s) = [] ∧
    (s.renderSelection = true →
      (getSelectionRects s).length
          = (s.selectionAnchor.y - s.endSelectionPosition.y).natAbs + 1 ∧
      ∀ i, ∀ hi : i < (getSelectionRects s).length,
        ((getSelectionRects s).get ⟨i, hi⟩).top
            = min s.selectionAnchor.y s.endSelectionPosition.y + i + viewStartIndex s ∧
        ((getSelectionRects s).get ⟨i, hi⟩).bottom
            = ((getSelectionRects s).get ⟨i, hi⟩).top) := by
  refine ⟨?_, ?_, ?_⟩
  · intro h
    simp [getSelectionRects, h]
  · simp [getSelectionRects, clearSelection]
  · intro h
    by_cases hc : s.selectionAnchor.y ≤ s.endSelectionPosition.y
    · have hc2 : ¬ s.endSelectionPosition.y < s.selectionAnchor.y := by omega
      refine ⟨?_, ?_⟩
      · simp only [getSelectionRects, h, hc, hc2, Bool.true_eq_false, reduceIte, if_true,
          if_false, List.length_map, List.length_range]
        omega
      · intro i hi
        simp only [getSelectionRects, h, hc, hc2, Bool.true_eq_false, reduceIte, if_true,
          if_false, List.length_map, List.length_range] at hi
        simp only [getSelectionRects, h, hc, hc2, Bool.true_eq_false, reduceIte, if_true,
          if_false, List.get_eq_getElem, List.getElem_map, List.getElem_range]
        split_ifs <;> refine ⟨?_, ?_⟩ <;> dsimp only <;> omega
    · have hc2 : s.endSelectionPosition.y < s.selectionAnchor.y := by omega
      refine ⟨?_, ?_⟩
      · simp only [getSelectionRects, h, hc, hc2, Bool.true_eq_false, reduceIte, if_true,
          if_false, List.length_map, List.length_range]
        omega
      · intro i hi
        simp only [getSelectionRects, h, hc, hc2, Bool.true_eq_false, reduceIte, if_true,
          if_false, List.length_map, List.length_range] at hi
        simp only [getSelectionRects, h, hc, hc2, Bool.true_eq_false, reduceIte, if_true,
          if_false, List.get_eq_getElem, List.getElem_map, List.getElem_range]
        split_ifs <;> refine ⟨?_, ?_⟩ <;> dsimp only <;> omega

/-- C6 witness: the empty cases at a fresh state and the rectangle count at a
concrete active selection. -/
theorem selection_rects_shape_w :
    getSelectionRects s80x24 = [] ∧
    getSelectionRects (clearSelection s80x24) = [] ∧
    (getSelectionRects c7state).length
        = (c7state.selectionAnchor.y - c7state.endSelectionPosition.y).natAbs + 1 :=
  ⟨(selection_rects_shape s80x24).1 rfl,
   (selection_rects_shape s80x24).2.1,
   ((selection_rects_shape c7state).2.2 rfl).1⟩

/-- C7 counterexample: a stream selection with anchor column 5 and end
column 2 on the same row yields the single rectangle with left 5 and right 2,
not left `min 5 2` and right `max 5 2` as the claim requires. -/
theorem stream_selection_cex :
    getSelectionRects c7state = [⟨5, 2, 2, 2⟩] ∧
    ¬ getSelectionRects c7state = [⟨min 5 2, 2, max 5 2, 2⟩] := by
  decide

/-- C7 amended: in stream (non-box) mode the first returned row's left edge is
the higher coordinate's column and the last row's right edge is the lower
coordinate's column, all other edges spanning the full width from 0 to
`bufWidth - 1`; when anchor and end share a row, the single rectangle's left
is the anchor's column and its right is the end's column as stored — not
their min/max, so left may exceed right. -/
theorem stream_selection_amended (s : TermState)
    (hr : s.renderSelection = true) (hb : s.boxSelection = false) :
    (∀ i, ∀ hi : i < (getSelectionRects s).length,
      ((getSelectionRects s).get ⟨i, hi⟩).left =
        (if i = 0 then
          (if s.selectionAnchor.y ≤ s.endSelectionPosition.y then s.selectionAnchor.x
           else s.endSelectionPosition.x)
         else 0) ∧
      ((getSelectionRects s).get ⟨i, hi⟩).right =
        (if i + 1 = (getSelectionRects s).length then
          (if s.endSelectionPosition.y < s.selectionAnchor.y then s.selectionAnchor.x
           else s.endSelectionPosition.x)
         else s.bufWidth - 1)) ∧
    (s.selectionAnchor.y = s.endSelectionPosition.y →
      getSelectionRects s =
        [⟨s.selectionAnchor.x, s.selectionAnchor.y + viewStartIndex s,
          s.endSelectionPosition.x, s.selectionAnchor.y + viewStartIndex s⟩]) := by
  refine ⟨?_, ?_⟩
  · intro i hi
    by_cases hc : s.selectionAnchor.y ≤ s.endSelectionPosition.y
    · have hc2 : ¬ s.endSelectionPosition.y < s.selectionAnchor.y := by omega
      simp only [getSelectionRects, hr, hb, hc, hc2, Bool.true_eq_false, reduceIte, if_true,
        if_false, List.length_map, List.length_range] at hi
      simp only [getSelectionRects, hr, hb, hc, hc2, Bool.true_eq_false, reduceIte, if_true,
        if_false, List.length_map, List.length_range, List.get_eq_getElem, List.getElem_map,
        List.getElem_range]
      split_ifs <;> (try contradiction) <;> refine ⟨?_, ?_⟩ <;> dsimp only <;> omega
    · have hc2 : s.endSelectionPosition.y < s.selectionAnchor.y := by omega
      simp only [getSelectionRects, hr, hb, hc, hc2, Bool.true_eq_false, reduceIte, if_true,
        if_false, List.length_map, List.length_range] at hi
      simp only [getSelectionRects, hr, hb, hc, hc2, Bool.true_eq_false, reduceIte, if_true,
        if_false, List.length_map, List.length_range, List.get_eq_getElem, List.getElem_map,
        List.getElem_range]
      split_ifs <;> (try contradiction) <;> refine ⟨?_, ?_⟩ <;> dsimp only <;> omega
  · intro heq
    have hc : s.selectionAnchor.y ≤ s.endSelectionPosition.y := by omega
    have hc2 : ¬ s.endSelectionPosition.y < s.selectionAnchor.y := by omega
    simp only [getSelectionRects, hr, hb, hc, hc2, Bool.true_eq_false, reduceIte, if_true,
      if_false]
    have h1 : (s.endSelectionPosition.y - s.selectionAnchor.y + 1).toNat = 1 := by omega
    rw [h1]
    have hr1 : List.range 1 = [0] := rfl
    rw [hr1]
    simp [heq, SmallRect.mk.injEq]

/-- C7 witness: the same-row stream selection at a concrete state. -/
theorem stream_selection_amended_w :
    getSelectionRects c7state =
      [⟨c7state.selectionAnchor.x, c7state.selectionAnchor.y + viewStartIndex c7state,
        c7state.endSelectionPosition.x, c7state.selectionAnchor.y + viewStartIndex c7state⟩] :=
  (stream_selection_amended c7state rfl rfl).2 rfl

end Terminal
